import Mathlib

/-!
Verification of the collaborative session coordinator of the
Collaborative Forms App.

The repository is a single-page React client plus an Express/Socket.IO
server (both in src/App.jsx).  The server keeps the room registry
(activeSessions : Map formId -> Map socketId -> session) and relays
field-update / lock / typing events; the per-field lock table and the
typing-indicator map live purely client-side (the lockedFields and
typingUsers React states), mutated by the socket event handlers.

We embed:
  * association-list maps with JavaScript object/Map update semantics
    (setk replaces in place, delk removes, getk finds first);
  * the server handlers joinForm, updateField, lockField, unlockField,
    userTyping, disconnect as pure state transformers returning the
    events they emit, each tagged with its delivery scope
    (io.to(room) / socket.to(room) / socket.emit);
  * the client socket handlers as applyEvent : ClientState -> Event ->
    ClientState.
-/

namespace CollabForms

/-- Key lookup in an association list (JS Map.get / object access):
returns the value at the first occurrence of the key. -/
def getk {V : Type} : List (String × V) → String → Option V
  | [], _ => none
  | (k0, v0) :: rest, k => if k0 = k then some v0 else getk rest k

/-- Key update in an association list (JS Map.set / object spread with a
computed key): replaces the value at an existing key in place, otherwise
appends the new entry at the end, matching JS insertion-order semantics. -/
def setk {V : Type} : List (String × V) → String → V → List (String × V)
  | [], k, v => [(k, v)]
  | (k0, v0) :: rest, k, v =>
    if k0 = k then (k0, v) :: rest else (k0, v0) :: setk rest k v

/-- Key removal from an association list (JS Map.delete / delete obj[k]). -/
def delk {V : Type} : List (String × V) → String → List (String × V)
  | [], _ => []
  | (k0, v0) :: rest, k =>
    if k0 = k then delk rest k else (k0, v0) :: delk rest k

/-- One entry of the server room registry: the session record stored by
the joinForm handler (src/App.jsx lines 1900-1905). -/
structure Session where
  userId : String
  userName : String
  joinedAt : Nat
  socketId : String
  deriving Repr, DecidableEq

/-- One field of a form schema (the parts the socket handlers read). -/
structure Field where
  id : String
  type : String
  label : String
  deriving Repr, DecidableEq

/-- A row of the forms table (the columns the socket handlers read). -/
structure Form where
  id : String
  title : String
  is_active : Bool
  fields : List Field
  deriving Repr, DecidableEq

/-- A row of the form_responses table (the columns updateField uses). -/
structure ResponseData where
  data : List (String × String)
  contributors : List String
  last_updated : Nat
  deriving Repr, DecidableEq

/-- The events the server emits to sockets, with their payloads
(src/App.jsx lines 1892-2038). -/
inductive Event where
  | userJoined (userId userName : String) (activeUsers : List Session)
  | activeUsersPush (activeUsers : List Session)
  | userLeft (userId userName : String) (activeUsers : List Session)
  | fieldUpdated (fieldId fieldLabel value updatedBy : String) (timestamp : Nat)
  | fieldLocked (fieldId lockedBy userId : String)
  | fieldUnlocked (fieldId userId : String)
  | unlockAllFieldsForUser (userId : String)
  | userTypingUpdate (fieldId userName : String) (isTyping : Bool)
  | formStructureUpdated (fields : List Field)
  | errorMessage (message : String)
  deriving Repr, DecidableEq

/-- Delivery scope of an emitted event: io.to(room).emit reaches every
member of the room, socket.to(room).emit reaches every member except the
sending socket, socket.emit reaches the sending socket only. -/
inductive Scope where
  | toRoom (formId : String)
  | toRoomExceptSender (formId : String)
  | toSelf
  deriving Repr, DecidableEq

/-- An emitted event together with its delivery scope. -/
structure Emit where
  scope : Scope
  event : Event
  deriving Repr, DecidableEq

/-- Server-side state touched by the socket handlers: the forms table,
the form_responses table, and the in-memory activeSessions registry. -/
structure ServerState where
  forms : List Form
  responses : List (String × ResponseData)
  activeSessions : List (String × List (String × Session))
  deriving Repr, DecidableEq

/-- The socket ids currently in the room of a form: the keys of the
sessions map for that form (the empty map when the form has no entry). -/
def roomMembers (st : ServerState) (formId : String) : List String :=
  ((getk st.activeSessions formId).getD []).map Prod.fst

/-- Concrete recipient set of a scope, resolved against a server state
and the sending socket. -/
def recipients (st : ServerState) (sender : String) : Scope → List String
  | Scope.toRoom formId => roomMembers st formId
  | Scope.toRoomExceptSender formId =>
    (roomMembers st formId).filter (fun m => m ≠ sender)
  | Scope.toSelf => [sender]

/-- A lock entry as the client stores it in lockedFields
(src/App.jsx line 74: setLockedFields with key fieldId and value
containing lockedBy and userId). -/
structure FieldLock where
  lockedBy : String
  userId : String
  deriving Repr, DecidableEq

/-- Client-side React state mirrored by the socket event handlers
(src/App.jsx lines 56-109): the current form schema, the collaborative
response, the presence list, locked fields and typing users.  The JS
handler stores the lastUpdated timestamp as an extra key of the same
formResponse object; we keep it in a separate component of the same
state. -/
structure ClientState where
  currentForm : Option (List Field)
  formResponse : List (String × String)
  responseLastUpdated : Option Nat
  activeUsers : List Session
  lockedFields : List (String × FieldLock)
  typingUsers : List (String × String)
  deriving Repr, DecidableEq

/-- The client socket event handlers (src/App.jsx lines 59-109), one
case per socket.on registration: presence events replace activeUsers;
fieldUpdated writes the value and timestamp; fieldLocked overwrites the
lock entry; fieldUnlocked deletes it; unlockAllFieldsForUser keeps only
the locks whose userId differs; userTypingUpdate stores the name when
isTyping and deletes the entry otherwise; formStructureUpdated replaces
the schema when a form is loaded; the error handler only logs. -/
def applyEvent (c : ClientState) : Event → ClientState
  | Event.userJoined _ _ users => { c with activeUsers := users }
  | Event.activeUsersPush users => { c with activeUsers := users }
  | Event.userLeft _ _ users => { c with activeUsers := users }
  | Event.fieldUpdated fieldId _ value _ timestamp =>
    { c with formResponse := setk c.formResponse fieldId value,
             responseLastUpdated := some timestamp }
  | Event.fieldLocked fieldId lockedBy userId =>
    { c with lockedFields := setk c.lockedFields fieldId ⟨lockedBy, userId⟩ }
  | Event.fieldUnlocked fieldId _ =>
    { c with lockedFields := delk c.lockedFields fieldId }
  | Event.unlockAllFieldsForUser userId =>
    { c with lockedFields :=
        c.lockedFields.filter (fun p => p.2.userId ≠ userId) }
  | Event.userTypingUpdate fieldId userName isTyping =>
    { c with typingUsers :=
        if isTyping then setk c.typingUsers fieldId userName
        else delk c.typingUsers fieldId }
  | Event.formStructureUpdated fields =>
    match c.currentForm with
    | some _ => { c with currentForm := some fields }
    | none => c
  | Event.errorMessage _ => c

/-- The decimal-integer fragment of the JS Number() conversion used by
the number branch of updateField (src/App.jsx line 1940): whitespace is
trimmed, the empty string converts to 0, an optional sign followed by
decimal digits converts to the signed integer, and every other string is
returned as none (NaN).  This is a strict restriction of JS Number():
fractional, exponent, hex and Infinity literals, which JS accepts, fall
into the none case here, and rendering through unbounded integers keeps
all digits where JS binary64 doubles would round and switch to exponent
notation.  The number branch of sanitizeValue therefore agrees with the
source only on this fragment, and no theorem in this file relies on its
behavior outside it. -/
def parseJSNumber (s : String) : Option Int :=
  let t := s.trim
  if t = "" then some 0
  else if t.startsWith "-" then ((t.drop 1).toNat?).map (fun n => -(n : Int))
  else if t.startsWith "+" then ((t.drop 1).toNat?).map Int.ofNat
  else (t.toNat?).map Int.ofNat

/-- The JS expression String(Number(value) or-else 0): NaN and 0 both
render as the string 0, every other number renders canonically. -/
def jsNumberOrZero (value : String) : String :=
  match parseJSNumber value with
  | none => "0"
  | some n => if n = 0 then "0" else toString n

/-- Sanitization applied by updateField before storing and broadcasting
a value (src/App.jsx lines 1938-1947), by field type: number coerces via
Number() with empty input kept empty (faithful only on the
decimal-integer fragment modelled by parseJSNumber); email lowercases
then trims; checkbox maps exactly the string true to true and everything
else to false; every other type truncates to 10000 characters. -/
def sanitizeValue (fieldType value : String) : String :=
  if fieldType = "number" then
    (if value = "" then "" else jsNumberOrZero value)
  else if fieldType = "email" then value.toLower.trim
  else if fieldType = "checkbox" then
    (if value = "true" then "true" else "false")
  else value.take 10000

/-- The joinForm socket handler (src/App.jsx lines 1883-1916): validates
that the form exists and is active (otherwise an error is emitted to the
caller only and nothing changes), registers the session in the room map
keyed by the socket id, replacing any prior entry for the same socket,
then emits userJoined with the new snapshot to the other members and
activeUsers with the same snapshot to the joiner. -/
def joinForm (st : ServerState) (sender formId userId userName : String)
    (now : Nat) : ServerState × List Emit :=
  match st.forms.find? (fun f => f.id = formId) with
  | none => (st, [⟨Scope.toSelf,
      Event.errorMessage "Form not found or inactive. Cannot join."⟩])
  | some form =>
    if form.is_active then
      let room := (getk st.activeSessions formId).getD []
      let room2 := setk room sender ⟨userId, userName, now, sender⟩
      ({ st with activeSessions := setk st.activeSessions formId room2 },
       [⟨Scope.toRoomExceptSender formId,
         Event.userJoined userId userName (room2.map Prod.snd)⟩,
        ⟨Scope.toSelf, Event.activeUsersPush (room2.map Prod.snd)⟩])
    else (st, [⟨Scope.toSelf,
      Event.errorMessage "Form not found or inactive. Cannot join."⟩])

/-- The updateField socket handler (src/App.jsx lines 1919-1999):
validates form existence and activity, then field membership in the
schema (each failure emits an error to the caller only and changes
nothing); sanitizes the value; inserts or updates the form_responses row
(setting the value, appending the caller to contributors when absent,
and refreshing last_updated); finally broadcasts fieldUpdated via
io.to(room), i.e. to every member including the originator. -/
def updateField (st : ServerState)
    (sender formId fieldId value userId userName : String)
    (now : Nat) : ServerState × List Emit :=
  match st.forms.find? (fun f => f.id = formId) with
  | none => (st, [⟨Scope.toSelf,
      Event.errorMessage "Form not found or inactive. Cannot update."⟩])
  | some form =>
    if form.is_active then
      match form.fields.find? (fun f => f.id = fieldId) with
      | none => (st, [⟨Scope.toSelf,
          Event.errorMessage "Field not found in form definition."⟩])
      | some field =>
        let sanitizedValue := sanitizeValue field.type value
        let newResponse : ResponseData :=
          match getk st.responses formId with
          | none => ⟨[(fieldId, sanitizedValue)], [userName], now⟩
          | some current =>
            ⟨setk current.data fieldId sanitizedValue,
             if userName ∈ current.contributors then current.contributors
             else current.contributors ++ [userName],
             now⟩
        ({ st with responses := setk st.responses formId newResponse },
         [⟨Scope.toRoom formId,
           Event.fieldUpdated fieldId field.label sanitizedValue userName now⟩])
    else (st, [⟨Scope.toSelf,
      Event.errorMessage "Form not found or inactive. Cannot update."⟩])

/-- The lockField socket handler (src/App.jsx lines 2001-2003): a pure
relay — no server-side lock state exists; the event is forwarded to the
other room members and nothing is sent back to the requester. -/
def lockField (st : ServerState)
    (formId fieldId userId userName : String) : ServerState × List Emit :=
  (st, [⟨Scope.toRoomExceptSender formId,
    Event.fieldLocked fieldId userName userId⟩])

/-- The unlockField socket handler (src/App.jsx lines 2005-2007): a pure
relay to the other room members, with no holder check of any kind. -/
def unlockField (st : ServerState)
    (formId fieldId userId : String) : ServerState × List Emit :=
  (st, [⟨Scope.toRoomExceptSender formId,
    Event.fieldUnlocked fieldId userId⟩])

/-- The userTyping socket handler (src/App.jsx lines 2009-2011): a pure
relay of the typing flag to the other room members. -/
def userTyping (st : ServerState)
    (formId fieldId userName : String) (isTyping : Bool) :
    ServerState × List Emit :=
  (st, [⟨Scope.toRoomExceptSender formId,
    Event.userTypingUpdate fieldId userName isTyping⟩])

/-- Per-room effect of the disconnect handler (src/App.jsx lines
2015-2041): when the room holds a session for the disconnecting socket,
the session is deleted and two events are emitted — userLeft with the
post-deletion snapshot via socket.to(room), and unlockAllFieldsForUser
with the departed userId via io.to(room); rooms not containing the
socket are untouched. -/
def disconnectRoom (sender : String)
    (entry : String × List (String × Session)) :
    (String × List (String × Session)) × List Emit :=
  match getk entry.2 sender with
  | none => (entry, [])
  | some user =>
    let remaining := delk entry.2 sender
    ((entry.1, remaining),
     [⟨Scope.toRoomExceptSender entry.1,
       Event.userLeft user.userId user.userName (remaining.map Prod.snd)⟩,
      ⟨Scope.toRoom entry.1, Event.unlockAllFieldsForUser user.userId⟩])

/-- The disconnect socket handler (src/App.jsx lines 2013-2042): iterates
over every form room, applying the per-room cleanup.  By the time the
disconnect event fires the socket has already left its socket.io rooms,
which the model reflects by resolving the emitted scopes against the
post-deletion state. -/
def disconnect (st : ServerState) (sender : String) :
    ServerState × List Emit :=
  ({ st with activeSessions :=
      st.activeSessions.map (fun e => (disconnectRoom sender e).1) },
   st.activeSessions.flatMap (fun e => (disconnectRoom sender e).2))

/-- Whole-system state: the server together with the client states of
the connected sockets, keyed by socket id. -/
structure GlobalState where
  server : ServerState
  clients : List (String × ClientState)
  deriving Repr, DecidableEq

/-- Delivery of one emitted event: every client whose socket id is in
the resolved recipient set applies its handler for the event. -/
def deliver (st : ServerState) (sender : String)
    (clients : List (String × ClientState)) (e : Emit) :
    List (String × ClientState) :=
  clients.map (fun p =>
    if p.1 ∈ recipients st sender e.scope
    then (p.1, applyEvent p.2 e.event) else p)

/-- One whole-system updateField step: the server handler runs, then the
emitted events are delivered to the recipient clients. -/
def stepUpdateField (g : GlobalState)
    (sender formId fieldId value userId userName : String) (now : Nat) :
    GlobalState × List Emit :=
  let r := updateField g.server sender formId fieldId value userId userName now
  ({ server := r.1,
     clients := r.2.foldl (deliver r.1 sender) g.clients }, r.2)

theorem getk_setk {V : Type} (m : List (String × V)) (k k2 : String) (v : V) :
    getk (setk m k v) k2 = if k = k2 then some v else getk m k2 := by
  induction m with
  | nil => simp [setk, getk]
  | cons hd tl ih =>
    obtain ⟨k0, v0⟩ := hd
    by_cases h0 : k0 = k
    · subst h0
      by_cases h2 : k0 = k2 <;> simp [setk, getk, h2]
    · by_cases h2 : k0 = k2
      · subst h2
        simp [setk, getk, h0, Ne.symm h0]
      · simp [setk, getk, h0, h2, ih]

theorem getk_delk {V : Type} (m : List (String × V)) (k k2 : String) :
    getk (delk m k) k2 = if k = k2 then none else getk m k2 := by
  induction m with
  | nil => simp [delk, getk]
  | cons hd tl ih =>
    obtain ⟨k0, v0⟩ := hd
    by_cases h0 : k0 = k
    · subst h0
      by_cases h2 : k0 = k2
      · subst h2
        simp [delk, getk, ih]
      · simp [delk, getk, h2, ih]
    · by_cases h2 : k0 = k2
      · subst h2
        simp [delk, getk, h0, Ne.symm h0]
      · simp [delk, getk, h0, h2, ih]

theorem keys_delk {V : Type} (m : List (String × V)) (k : String) :
    (delk m k).map Prod.fst = (m.map Prod.fst).filter (fun x => x ≠ k) := by
  induction m with
  | nil => simp [delk]
  | cons hd tl ih =>
    obtain ⟨k0, v0⟩ := hd
    by_cases h : k0 = k <;> simp [delk, h, ih]

/-- C2 (counterexample): in a client whose lock table records field
email as locked by Alice, the fieldLocked event relayed from a competing
lockField request by Bob does not leave the existing lock in place — it
overwrites the holder with Bob. -/
theorem lockField_overwrite_cex :
    getk (applyEvent
      ⟨none, [], none, [], [("email", ⟨"Alice", "a1"⟩)], []⟩
      (Event.fieldLocked "email" "Bob" "b1")).lockedFields "email" ≠
      some ⟨"Alice", "a1"⟩ ∧
    getk (applyEvent
      ⟨none, [], none, [], [("email", ⟨"Alice", "a1"⟩)], []⟩
      (Event.fieldLocked "email" "Bob" "b1")).lockedFields "email" =
      some ⟨"Bob", "b1"⟩ := by
  decide

/-- C2 (amended): a lockField request is relayed as a fieldLocked event
to the other room members with no reply of any kind to the requester (in
particular no AlreadyLocked answer and no server-side lock state), and
every recipient overwrites its lock entry for the field with the new
holder unconditionally. -/
theorem lockField_relays_and_client_overwrites :
    ∀ (st : ServerState) (formId fieldId userId userName : String)
      (c : ClientState) (lockedBy uid : String),
    lockField st formId fieldId userId userName =
      (st, [⟨Scope.toRoomExceptSender formId,
        Event.fieldLocked fieldId userName userId⟩]) ∧
    getk (applyEvent c (Event.fieldLocked fieldId lockedBy uid)).lockedFields
      fieldId = some ⟨lockedBy, uid⟩ := by
  intro st formId fieldId userId userName c lockedBy uid
  refine ⟨rfl, ?_⟩
  simp [applyEvent, getk_setk]

/-- C3 (counterexample): in a client whose lock table records field F as
locked by Alice, the fieldUnlocked event relayed from an unlockField
request issued by Bob (not the holder) deletes Alice's lock instead of
leaving it intact. -/
theorem unlockField_nonholder_cex :
    (applyEvent
      ⟨none, [], none, [], [("F", ⟨"Alice", "a1"⟩)], []⟩
      (Event.fieldUnlocked "F" "b1")).lockedFields ≠
      [("F", ⟨"Alice", "a1"⟩)] ∧
    getk (applyEvent
      ⟨none, [], none, [], [("F", ⟨"Alice", "a1"⟩)], []⟩
      (Event.fieldUnlocked "F" "b1")).lockedFields "F" = none := by
  decide

/-- C3 (amended): an unlockField request is relayed as a fieldUnlocked
event to the other room members with no holder check anywhere, and every
recipient deletes its lock entry for that field unconditionally,
whoever issued the release. -/
theorem unlockField_relays_and_client_deletes :
    ∀ (st : ServerState) (formId fieldId userId : String)
      (c : ClientState) (uid : String),
    unlockField st formId fieldId userId =
      (st, [⟨Scope.toRoomExceptSender formId,
        Event.fieldUnlocked fieldId userId⟩]) ∧
    getk (applyEvent c (Event.fieldUnlocked fieldId uid)).lockedFields
      fieldId = none := by
  intro st formId fieldId userId c uid
  refine ⟨rfl, ?_⟩
  simp [applyEvent, getk_delk]

/-- C4 (counterexample): starting from an empty typing map, the sequence
typing(f1, Alice, true); typing(f1, Bob, true); typing(f1, Alice, false)
leaves no typing entry for f1 at all — not the entry (Bob, true) the
claim requires: the stale clear from Alice erases Bob's indicator. -/
theorem typing_stale_clear_cex :
    getk (applyEvent (applyEvent (applyEvent
      ⟨none, [], none, [], [], []⟩
      (Event.userTypingUpdate "f1" "Alice" true))
      (Event.userTypingUpdate "f1" "Bob" true))
      (Event.userTypingUpdate "f1" "Alice" false)).typingUsers "f1" ≠
      some "Bob" ∧
    getk (applyEvent (applyEvent (applyEvent
      ⟨none, [], none, [], [], []⟩
      (Event.userTypingUpdate "f1" "Alice" true))
      (Event.userTypingUpdate "f1" "Bob" true))
      (Event.userTypingUpdate "f1" "Alice" false)).typingUsers "f1" =
      none := by
  decide

/-- C4 (amended): a true typing event overwrites any prior typer for the
field unconditionally, and a false typing event removes the entry
unconditionally — there is no check that it matches the sender's
displayName — so setTyping(F, X, true); setTyping(F, Y, true);
setTyping(F, X, false) leaves no typing entry for F. -/
theorem typing_clear_is_unconditional :
    ∀ (c : ClientState) (F X Y : String),
    getk (applyEvent (applyEvent c
      (Event.userTypingUpdate F X true))
      (Event.userTypingUpdate F Y true)).typingUsers F = some Y ∧
    getk (applyEvent (applyEvent (applyEvent c
      (Event.userTypingUpdate F X true))
      (Event.userTypingUpdate F Y true))
      (Event.userTypingUpdate F X false)).typingUsers F = none := by
  intro c F X Y
  constructor
  · simp [applyEvent, getk_setk]
  · simp [applyEvent, getk_delk]

/-- C9 (counterexample): a client holding a lock entry and a typing
entry for field x receives a structure change that removes x from the
schema; afterwards the schema is replaced but both the lock entry and
the typing entry for the vanished field x are still present — nothing
is dropped. -/
theorem structure_change_stale_state_cex :
    getk (applyEvent
      ⟨some [⟨"x", "text", "X"⟩], [], none, [],
       [("x", ⟨"Alice", "a1"⟩)], [("x", "Alice")]⟩
      (Event.formStructureUpdated [⟨"y", "text", "Y"⟩])).lockedFields "x" =
      some ⟨"Alice", "a1"⟩ ∧
    getk (applyEvent
      ⟨some [⟨"x", "text", "X"⟩], [], none, [],
       [("x", ⟨"Alice", "a1"⟩)], [("x", "Alice")]⟩
      (Event.formStructureUpdated [⟨"y", "text", "Y"⟩])).typingUsers "x" =
      some "Alice" ∧
    (applyEvent
      ⟨some [⟨"x", "text", "X"⟩], [], none, [],
       [("x", ⟨"Alice", "a1"⟩)], [("x", "Alice")]⟩
      (Event.formStructureUpdated [⟨"y", "text", "Y"⟩])).currentForm =
      some [⟨"y", "text", "Y"⟩] := by
  decide

/-- C9 (amended): on a formStructureUpdated event the client replaces
the loaded schema (when a form is loaded) but leaves its lockedFields
and typingUsers maps completely unchanged; lock and typing entries for
field ids absent from the new schema are retained, not dropped. -/
theorem structure_change_retains_lock_and_typing :
    ∀ (c : ClientState) (fields : List Field),
    (applyEvent c (Event.formStructureUpdated fields)).lockedFields =
      c.lockedFields ∧
    (applyEvent c (Event.formStructureUpdated fields)).typingUsers =
      c.typingUsers ∧
    (applyEvent c (Event.formStructureUpdated fields)).currentForm =
      (match c.currentForm with
       | some _ => some fields
       | none => none) := by
  intro c fields
  cases h : c.currentForm <;> simp [applyEvent, h]

/-- C8: an updateField request naming a field id absent from the active
form's schema leaves the whole server state unchanged (responses and
room membership included), and the only emission is the FieldUnknown
error, scoped to the originating socket alone — nothing is broadcast. -/
theorem updateField_unknown_field (st : ServerState)
    (sender formId fieldId value userId userName : String) (now : Nat)
    (form : Form)
    (hform : st.forms.find? (fun f => f.id = formId) = some form)
    (hact : form.is_active = true)
    (hfield : form.fields.find? (fun f => f.id = fieldId) = none) :
    updateField st sender formId fieldId value userId userName now =
      (st, [⟨Scope.toSelf,
        Event.errorMessage "Field not found in form definition."⟩]) ∧
    recipients st sender Scope.toSelf = [sender] ∧
    (updateField st sender formId fieldId value userId userName now).1.responses
      = st.responses ∧
    roomMembers
      (updateField st sender formId fieldId value userId userName now).1 formId
      = roomMembers st formId := by
  have h : updateField st sender formId fieldId value userId userName now =
      (st, [⟨Scope.toSelf,
        Event.errorMessage "Field not found in form definition."⟩]) := by
    simp [updateField, hform, hact, hfield]
  exact ⟨h, rfl, by rw [h], by rw [h]⟩

theorem updateField_unknown_field_witness :
    (ServerState.mk [⟨"F1", "Test", true, [⟨"email", "email", "Email"⟩]⟩]
        [] [("F1", [("sB", ⟨"b1", "Bob", 2, "sB"⟩)])]).forms.find?
      (fun f => f.id = "F1") =
      some ⟨"F1", "Test", true, [⟨"email", "email", "Email"⟩]⟩ ∧
    (Form.mk "F1" "Test" true [⟨"email", "email", "Email"⟩]).is_active = true ∧
    (Form.mk "F1" "Test" true [⟨"email", "email", "Email"⟩]).fields.find?
      (fun f => f.id = "ghost") = none ∧
    updateField
      (ServerState.mk [⟨"F1", "Test", true, [⟨"email", "email", "Email"⟩]⟩]
        [] [("F1", [("sB", ⟨"b1", "Bob", 2, "sB"⟩)])])
      "sB" "F1" "ghost" "hi" "b1" "Bob" 5 =
      (ServerState.mk [⟨"F1", "Test", true, [⟨"email", "email", "Email"⟩]⟩]
        [] [("F1", [("sB", ⟨"b1", "Bob", 2, "sB"⟩)])],
       [⟨Scope.toSelf,
         Event.errorMessage "Field not found in form definition."⟩]) :=
  ⟨by decide, by decide, by decide,
   (updateField_unknown_field
      (ServerState.mk [⟨"F1", "Test", true, [⟨"email", "email", "Email"⟩]⟩]
        [] [("F1", [("sB", ⟨"b1", "Bob", 2, "sB"⟩)])])
      "sB" "F1" "ghost" "hi" "b1" "Bob" 5
      ⟨"F1", "Test", true, [⟨"email", "email", "Email"⟩]⟩
      (by decide) (by decide) (by decide)).1⟩

/-- C6: an accepted updateField emits fieldUpdated with io.to scope,
whose recipient set is the full room membership, originator included,
while lockField, unlockField and userTyping emit their events with
socket.to scope, whose recipient set is the room membership minus the
acting socket; a member is a recipient of the latter exactly when it is
not the actor. -/
theorem broadcast_recipient_rules (st : ServerState)
    (sender formId fieldId value userId userName : String) (now : Nat)
    (form : Form) (field : Field) (isTyping : Bool) (m : String)
    (hform : st.forms.find? (fun f => f.id = formId) = some form)
    (hact : form.is_active = true)
    (hfield : form.fields.find? (fun f => f.id = fieldId) = some field)
    (hm : m ∈ roomMembers st formId) :
    (updateField st sender formId fieldId value userId userName now).2 =
      [⟨Scope.toRoom formId, Event.fieldUpdated fieldId field.label
        (sanitizeValue field.type value) userName now⟩] ∧
    (updateField st sender formId fieldId value userId userName now).1.activeSessions
      = st.activeSessions ∧
    (lockField st formId fieldId userId userName).2 =
      [⟨Scope.toRoomExceptSender formId,
        Event.fieldLocked fieldId userName userId⟩] ∧
    (unlockField st formId fieldId userId).2 =
      [⟨Scope.toRoomExceptSender formId,
        Event.fieldUnlocked fieldId userId⟩] ∧
    (userTyping st formId fieldId userName isTyping).2 =
      [⟨Scope.toRoomExceptSender formId,
        Event.userTypingUpdate fieldId userName isTyping⟩] ∧
    m ∈ recipients st sender (Scope.toRoom formId) ∧
    (m ∈ recipients st sender (Scope.toRoomExceptSender formId) ↔ m ≠ sender) ∧
    sender ∉ recipients st sender (Scope.toRoomExceptSender formId) := by
  refine ⟨?_, ?_, rfl, rfl, rfl, ?_, ?_, ?_⟩
  · simp [updateField, hform, hact, hfield]
  · simp [updateField, hform, hact, hfield]
  · exact hm
  · simp [recipients, List.mem_filter, hm]
  · simp [recipients, List.mem_filter]

theorem broadcast_recipient_rules_witness :
    (ServerState.mk [⟨"F1", "Test", true, [⟨"email", "email", "Email"⟩]⟩]
        [] [("F1", [("sA", ⟨"a1", "Alice", 1, "sA"⟩),
                    ("sB", ⟨"b1", "Bob", 2, "sB"⟩)])]).forms.find?
      (fun f => f.id = "F1") =
      some ⟨"F1", "Test", true, [⟨"email", "email", "Email"⟩]⟩ ∧
    (Form.mk "F1" "Test" true [⟨"email", "email", "Email"⟩]).is_active = true ∧
    (Form.mk "F1" "Test" true [⟨"email", "email", "Email"⟩]).fields.find?
      (fun f => f.id = "email") = some ⟨"email", "email", "Email"⟩ ∧
    "sB" ∈ roomMembers
      (ServerState.mk [⟨"F1", "Test", true, [⟨"email", "email", "Email"⟩]⟩]
        [] [("F1", [("sA", ⟨"a1", "Alice", 1, "sA"⟩),
                    ("sB", ⟨"b1", "Bob", 2, "sB"⟩)])]) "F1" ∧
    "sB" ∈ recipients
      (ServerState.mk [⟨"F1", "Test", true, [⟨"email", "email", "Email"⟩]⟩]
        [] [("F1", [("sA", ⟨"a1", "Alice", 1, "sA"⟩),
                    ("sB", ⟨"b1", "Bob", 2, "sB"⟩)])]) "sB"
      (Scope.toRoom "F1") :=
  ⟨by decide, by decide, by decide, by decide,
   (broadcast_recipient_rules
      (ServerState.mk [⟨"F1", "Test", true, [⟨"email", "email", "Email"⟩]⟩]
        [] [("F1", [("sA", ⟨"a1", "Alice", 1, "sA"⟩),
                    ("sB", ⟨"b1", "Bob", 2, "sB"⟩)])])
      "sB" "F1" "email" "hi" "b1" "Bob" 5
      ⟨"F1", "Test", true, [⟨"email", "email", "Email"⟩]⟩
      ⟨"email", "email", "Email"⟩ true "sB"
      (by decide) (by decide) (by decide) (by decide)).2.2.2.2.2.1⟩

/-- C5: the outcome of an accepted updateField is independent of all
client-side lock state — two whole-system states with the same server
component produce identical emissions and identical new server states,
whatever their lockedFields contain, and the request on a schema field
of an active form is always accepted with a fieldUpdated broadcast to
the whole room. -/
theorem updateField_ignores_lock_state (g1 g2 : GlobalState)
    (sender formId fieldId value userId userName : String) (now : Nat)
    (form : Form) (field : Field)
    (hsrv : g1.server = g2.server)
    (hform : g1.server.forms.find? (fun f => f.id = formId) = some form)
    (hact : form.is_active = true)
    (hfield : form.fields.find? (fun f => f.id = fieldId) = some field) :
    (stepUpdateField g1 sender formId fieldId value userId userName now).2 =
      (stepUpdateField g2 sender formId fieldId value userId userName now).2 ∧
    (stepUpdateField g1 sender formId fieldId value userId userName now).1.server
      = (stepUpdateField g2 sender formId fieldId value userId userName
          now).1.server ∧
    (stepUpdateField g1 sender formId fieldId value userId userName now).2 =
      [⟨Scope.toRoom formId, Event.fieldUpdated fieldId field.label
        (sanitizeValue field.type value) userName now⟩] := by
  refine ⟨?_, ?_, ?_⟩
  · simp [stepUpdateField, hsrv]
  · simp [stepUpdateField, hsrv]
  · simp [stepUpdateField, updateField, hform, hact, hfield]

theorem updateField_ignores_lock_state_witness :
    (GlobalState.mk
      (ServerState.mk [⟨"F1", "Test", true, [⟨"email", "email", "Email"⟩]⟩]
        [] [("F1", [("sA", ⟨"a1", "Alice", 1, "sA"⟩),
                    ("sB", ⟨"b1", "Bob", 2, "sB"⟩)])])
      [("sB", ⟨some [⟨"email", "email", "Email"⟩], [], none, [],
        [("email", ⟨"Alice", "a1"⟩)], []⟩)]).server =
    (GlobalState.mk
      (ServerState.mk [⟨"F1", "Test", true, [⟨"email", "email", "Email"⟩]⟩]
        [] [("F1", [("sA", ⟨"a1", "Alice", 1, "sA"⟩),
                    ("sB", ⟨"b1", "Bob", 2, "sB"⟩)])])
      [("sB", ⟨some [⟨"email", "email", "Email"⟩], [], none, [], [], []⟩)]).server ∧
    (stepUpdateField
      (GlobalState.mk
        (ServerState.mk [⟨"F1", "Test", true, [⟨"email", "email", "Email"⟩]⟩]
          [] [("F1", [("sA", ⟨"a1", "Alice", 1, "sA"⟩),
                      ("sB", ⟨"b1", "Bob", 2, "sB"⟩)])])
        [("sB", ⟨some [⟨"email", "email", "Email"⟩], [], none, [],
          [("email", ⟨"Alice", "a1"⟩)], []⟩)])
      "sB" "F1" "email" "Bob@X.com" "b1" "Bob" 5).2 =
    (stepUpdateField
      (GlobalState.mk
        (ServerState.mk [⟨"F1", "Test", true, [⟨"email", "email", "Email"⟩]⟩]
          [] [("F1", [("sA", ⟨"a1", "Alice", 1, "sA"⟩),
                      ("sB", ⟨"b1", "Bob", 2, "sB"⟩)])])
        [("sB", ⟨some [⟨"email", "email", "Email"⟩], [], none, [], [], []⟩)])
      "sB" "F1" "email" "Bob@X.com" "b1" "Bob" 5).2 :=
  ⟨rfl,
   (updateField_ignores_lock_state
      (GlobalState.mk
        (ServerState.mk [⟨"F1", "Test", true, [⟨"email", "email", "Email"⟩]⟩]
          [] [("F1", [("sA", ⟨"a1", "Alice", 1, "sA"⟩),
                      ("sB", ⟨"b1", "Bob", 2, "sB"⟩)])])
        [("sB", ⟨some [⟨"email", "email", "Email"⟩], [], none, [],
          [("email", ⟨"Alice", "a1"⟩)], []⟩)])
      (GlobalState.mk
        (ServerState.mk [⟨"F1", "Test", true, [⟨"email", "email", "Email"⟩]⟩]
          [] [("F1", [("sA", ⟨"a1", "Alice", 1, "sA"⟩),
                      ("sB", ⟨"b1", "Bob", 2, "sB"⟩)])])
        [("sB", ⟨some [⟨"email", "email", "Email"⟩], [], none, [], [], []⟩)])
      "sB" "F1" "email" "Bob@X.com" "b1" "Bob" 5
      ⟨"F1", "Test", true, [⟨"email", "email", "Email"⟩]⟩
      ⟨"email", "email", "Email"⟩
      rfl (by decide) (by decide) (by decide)).1⟩

theorem getk_cons {V : Type} (a : String × V) (l : List (String × V))
    (k : String) :
    getk (a :: l) k = if a.1 = k then some a.2 else getk l k := by
  obtain ⟨x, y⟩ := a
  rfl

theorem getk_map_disconnectRoom (sender fId : String)
    (l : List (String × List (String × Session))) :
    getk (l.map fun e => (disconnectRoom sender e).1) fId =
      (getk l fId).map (fun sess =>
        match getk sess sender with
        | none => sess
        | some _ => delk sess sender) := by
  induction l with
  | nil => rfl
  | cons hd tl ih =>
    obtain ⟨k0, sess0⟩ := hd
    rw [List.map_cons, getk_cons, getk_cons]
    have hfst : ((disconnectRoom sender (k0, sess0)).1).1 = k0 := by
      cases hg : getk sess0 sender <;> simp [disconnectRoom, hg]
    rw [hfst]
    by_cases h : k0 = fId
    · subst h
      simp only [if_pos rfl]
      cases hg : getk sess0 sender <;> simp [disconnectRoom, hg]
    · simp only [if_neg h, ih]

theorem disconnect_emits_of_mem (sender fId : String)
    (l : List (String × List (String × Session)))
    (sess : List (String × Session)) (user : Session)
    (hroom : getk l fId = some sess) (huser : getk sess sender = some user) :
    Emit.mk (Scope.toRoomExceptSender fId)
      (Event.userLeft user.userId user.userName
        ((delk sess sender).map Prod.snd)) ∈
      l.flatMap (fun e => (disconnectRoom sender e).2) ∧
    Emit.mk (Scope.toRoom fId) (Event.unlockAllFieldsForUser user.userId) ∈
      l.flatMap (fun e => (disconnectRoom sender e).2) := by
  induction l with
  | nil => simp [getk] at hroom
  | cons hd tl ih =>
    obtain ⟨k0, sess0⟩ := hd
    rw [List.flatMap_cons]
    by_cases h : k0 = fId
    · subst h
      simp [getk] at hroom
      subst hroom
      constructor <;> (apply List.mem_append_left; simp [disconnectRoom, huser])
    · simp only [getk, if_neg h] at hroom
      have hrec := ih hroom
      exact ⟨List.mem_append_right _ hrec.1, List.mem_append_right _ hrec.2⟩

theorem filter_ne_delk (sess : List (String × Session)) (sender : String) :
    ((delk sess sender).map Prod.fst).filter (fun m => m ≠ sender) =
      (delk sess sender).map Prod.fst := by
  apply List.filter_eq_self.mpr
  intro a ha
  rw [keys_delk] at ha
  simpa using (List.mem_filter.mp ha).2

/-- C1: when a socket holding a session in a form room disconnects, the
registry entry for that socket is removed; the remaining members — and
exactly they, since both emitted scopes resolve to the post-removal
membership — receive a userLeft event whose activeUsers snapshot is the
post-removal session list together with an unlockAllFieldsForUser event
carrying the departed userId (emitted unconditionally, locks or not);
and a client applying that event retains no lock whose holder is the
departed participant. -/
theorem disconnect_cleans_up (st : ServerState) (sender fId : String)
    (sess : List (String × Session)) (user : Session) (c : ClientState)
    (hroom : getk st.activeSessions fId = some sess)
    (huser : getk sess sender = some user) :
    getk (disconnect st sender).1.activeSessions fId =
      some (delk sess sender) ∧
    getk (delk sess sender) sender = none ∧
    Emit.mk (Scope.toRoomExceptSender fId)
      (Event.userLeft user.userId user.userName
        ((delk sess sender).map Prod.snd)) ∈ (disconnect st sender).2 ∧
    Emit.mk (Scope.toRoom fId) (Event.unlockAllFieldsForUser user.userId) ∈
      (disconnect st sender).2 ∧
    recipients (disconnect st sender).1 sender
      (Scope.toRoomExceptSender fId) = roomMembers (disconnect st sender).1 fId ∧
    recipients (disconnect st sender).1 sender (Scope.toRoom fId) =
      roomMembers (disconnect st sender).1 fId ∧
    ((applyEvent c (Event.unlockAllFieldsForUser user.userId)).lockedFields.all
      (fun p => p.2.userId ≠ user.userId)) = true := by
  have hget : getk (disconnect st sender).1.activeSessions fId =
      some (delk sess sender) := by
    show getk (st.activeSessions.map fun e => (disconnectRoom sender e).1) fId = _
    rw [getk_map_disconnectRoom, hroom]
    simp [huser]
  have hmem : roomMembers (disconnect st sender).1 fId =
      (delk sess sender).map Prod.fst := by
    simp [roomMembers, hget]
  have hemits := disconnect_emits_of_mem sender fId st.activeSessions sess user
    hroom huser
  refine ⟨hget, ?_, hemits.1, hemits.2, ?_, rfl, ?_⟩
  · rw [getk_delk]
    simp
  · show (roomMembers (disconnect st sender).1 fId).filter
      (fun m => m ≠ sender) = roomMembers (disconnect st sender).1 fId
    rw [hmem]
    exact filter_ne_delk sess sender
  · simp only [applyEvent, List.all_eq_true]
    intro p hp
    simpa using (List.mem_filter.mp hp).2

theorem disconnect_cleans_up_witness :
    getk (ServerState.mk
      [⟨"F1", "Test", true, [⟨"email", "email", "Email"⟩]⟩] []
      [("F1", [("sA", ⟨"a1", "Alice", 1, "sA"⟩),
               ("sB", ⟨"b1", "Bob", 2, "sB"⟩)])]).activeSessions "F1" =
      some [("sA", ⟨"a1", "Alice", 1, "sA"⟩),
            ("sB", ⟨"b1", "Bob", 2, "sB"⟩)] ∧
    getk [("sA", Session.mk "a1" "Alice" 1 "sA"),
          ("sB", Session.mk "b1" "Bob" 2 "sB")] "sA" =
      some ⟨"a1", "Alice", 1, "sA"⟩ ∧
    Emit.mk (Scope.toRoom "F1") (Event.unlockAllFieldsForUser "a1") ∈
      (disconnect (ServerState.mk
        [⟨"F1", "Test", true, [⟨"email", "email", "Email"⟩]⟩] []
        [("F1", [("sA", ⟨"a1", "Alice", 1, "sA"⟩),
                 ("sB", ⟨"b1", "Bob", 2, "sB"⟩)])]) "sA").2 :=
  ⟨by decide, by decide,
   (disconnect_cleans_up
      (ServerState.mk
        [⟨"F1", "Test", true, [⟨"email", "email", "Email"⟩]⟩] []
        [("F1", [("sA", ⟨"a1", "Alice", 1, "sA"⟩),
                 ("sB", ⟨"b1", "Bob", 2, "sB"⟩)])])
      "sA" "F1"
      [("sA", ⟨"a1", "Alice", 1, "sA"⟩), ("sB", ⟨"b1", "Bob", 2, "sB"⟩)]
      ⟨"a1", "Alice", 1, "sA"⟩
      ⟨none, [], none, [], [("email", ⟨"Eve", "a1"⟩)], []⟩
      (by decide) (by decide)).2.2.2.1⟩

end CollabForms
